import Mathlib

/-!
Verification of the long/short ratio aggregation route
(`src/app/api/long-short_ratio/route.ts`).

The route's GET handler fans out one computation per configured exchange,
normalizes each exchange's upstream payload into a `LongShortRatioData`
record, and joins the results with `Promise.all`.  We embed the handler
shallowly: JavaScript numbers become rationals, upstream HTTP outcomes
become `Except String` values supplied by an `Env`, thrown exceptions
become `Except.error`, and each `try/catch` block becomes `caught`.
-/

namespace LongShort

/-- The canonical UI timeframes accepted by the dashboard
(the fixed enumerated set of the data model). -/
inductive Timeframe
  | tf5m | tf15m | tf30m | tf1h | tf4h | tf1d
deriving DecidableEq

/-- The canonical timeframe token as it appears in the query string and in
the lookup tables of the source (`5m`, `15m`, `30m`, `1h`, `4h`, `1d`). -/
def tfToken : Timeframe → String
  | .tf5m => "5m"
  | .tf15m => "15m"
  | .tf30m => "30m"
  | .tf1h => "1h"
  | .tf4h => "4h"
  | .tf1d => "1d"

/-- The status variants of `LongShortRatioData` in the source
(the string literals `Success`, `Not Supported`, `Error`). -/
inductive Status
  | Success | NotSupported | Error
deriving DecidableEq

/-- The raw ccxt `info` object fields consulted by `parseExchangeData`.
A `some` value models a field that is present with a numeric string;
`none` models an absent field. -/
structure CcxtInfo where
  longAccount : Option ℚ := none
  shortAccount : Option ℚ := none
  longAccountRatio : Option ℚ := none
  shortAccountRatio : Option ℚ := none
  longShortRatio : Option ℚ := none
  buyRatio : Option ℚ := none
  sellRatio : Option ℚ := none
deriving DecidableEq

/-- One element of the history list returned by
`fetchLongShortRatioHistory` (the parsed `longShortRatio` plus the raw
`info` payload). -/
structure CcxtEntry where
  longShortRatio : Option ℚ := none
  info : CcxtInfo := {}
deriving DecidableEq

/-- The normalized output record (`LongShortRatioData` in the source).
The `info` field mirrors the raw payload attached on the ccxt success
path. -/
structure LongShortRatioData where
  exchange : String
  status : Status
  longShortRatio : Option ℚ := none
  longPercent : Option ℚ := none
  shortPercent : Option ℚ := none
  message : Option String := none
  info : Option CcxtInfo := none
deriving DecidableEq

/-- The latest element of `response.data?.data?.list` in the Huobi
adapter; `buy_ratio` / `sell_ratio` are `none` when the field is
`undefined`. -/
structure HuobiEntry where
  buy_ratio : Option ℚ := none
  sell_ratio : Option ℚ := none
deriving DecidableEq

/-- The first element of the Gate.io `contract_stats` response;
`top_lsr_account` is the numeric ratio field consulted by the adapter. -/
structure GateEntry where
  top_lsr_account : Option ℚ := none
deriving DecidableEq

/-- The `top20Percent` object of the Kraken Futures analytics response:
three parallel arrays of data points. -/
structure KrakenData where
  longPercent : List ℚ := []
  shortPercent : List ℚ := []
  ratio : List ℚ := []
deriving DecidableEq

/-- The upstream world for one aggregation request.  Each field models
one kind of network interaction: an `Except.error` is a rejected
promise (transport failure, non-2xx, thrown exception inside the HTTP
client); an `Except.ok` is the already-destructured payload after the
optional-chaining performed by the source. -/
structure Env where
  /-- `axios.get` of the Huobi elite account ratio endpoint, keyed by
  `contract_code` and `period`; the payload is `data?.data?.list?.[0]`. -/
  huobiGet : String → String → Except String (Option HuobiEntry)
  /-- `axios.get` of the Kraken long-short-info endpoint, keyed by symbol
  and interval; the payload is `result?.data?.top20Percent`. -/
  krakenGet : String → Nat → Except String (Option KrakenData)
  /-- `axios.get` of the Gate.io contract stats endpoint, keyed by
  contract and interval; the payload is `data?.[0]`. -/
  gateioGet : String → String → Except String (Option GateEntry)
  /-- `exchange.has[..]` capability flag of the ccxt client, per exchange id. -/
  ccxtHas : String → Bool
  /-- `exchange.fetchLongShortRatioHistory(symbol, timeframe, undefined, 1, params)`
  per exchange id. -/
  ccxtFetch : String → String → String → Except String (List CcxtEntry)

/-- Timeframe vocabulary of `timeframeMap.binanceusdm`. -/
def binanceTimeframes : Timeframe → Option String
  | .tf5m => some "5m"
  | .tf15m => some "15m"
  | .tf30m => some "30m"
  | .tf1h => some "1h"
  | .tf4h => some "4h"
  | .tf1d => some "1d"

/-- Timeframe vocabulary of `timeframeMap.bybit`. -/
def bybitTimeframes : Timeframe → Option String
  | .tf5m => some "5min"
  | .tf15m => some "15min"
  | .tf30m => some "30min"
  | .tf1h => some "1h"
  | .tf4h => some "4h"
  | .tf1d => some "1d"

/-- Timeframe vocabulary of `timeframeMap.okx` (`1d` is absent). -/
def okxTimeframes : Timeframe → Option String
  | .tf5m => some "5m"
  | .tf15m => some "15m"
  | .tf30m => some "30m"
  | .tf1h => some "1H"
  | .tf4h => some "4H"
  | .tf1d => none

/-- Timeframe vocabulary of `timeframeMap.bitget` (`1d` is absent). -/
def bitgetTimeframes : Timeframe → Option String
  | .tf5m => some "5m"
  | .tf15m => some "15m"
  | .tf30m => some "30m"
  | .tf1h => some "1h"
  | .tf4h => some "4h"
  | .tf1d => none

/-- Timeframe vocabulary of `timeframeMap.gateio`. -/
def gateioTimeframes : Timeframe → Option String
  | .tf5m => some "5m"
  | .tf15m => some "15m"
  | .tf30m => some "30m"
  | .tf1h => some "1h"
  | .tf4h => some "4h"
  | .tf1d => some "1d"

/-- The `timeframeMap` object: per-exchange timeframe vocabulary, `none`
for an exchange id that is not a key of the map. -/
def timeframeMapLookup (exchangeId : String) : Option (Timeframe → Option String) :=
  if exchangeId = "binanceusdm" then some binanceTimeframes
  else if exchangeId = "bybit" then some bybitTimeframes
  else if exchangeId = "okx" then some okxTimeframes
  else if exchangeId = "bitget" then some bitgetTimeframes
  else if exchangeId = "gateio" then some gateioTimeframes
  else none

/-- The `krakenTimeframeMap` object (interval in seconds); every canonical
timeframe is a key, so within the `Timeframe` enumeration the lookup is
total. -/
def krakenTimeframeMap : Timeframe → Nat
  | .tf5m => 300
  | .tf15m => 900
  | .tf30m => 1800
  | .tf1h => 3600
  | .tf4h => 14400
  | .tf1d => 86400

/-- Result of `uiTimeframe.replace('m', 'min').replace('h', 'hour')` on
each canonical token (each `replace` rewrites the first occurrence). -/
def huobiPeriod : Timeframe → String
  | .tf5m => "5min"
  | .tf15m => "15min"
  | .tf30m => "30min"
  | .tf1h => "1hour"
  | .tf4h => "4hour"
  | .tf1d => "1d"

/-- The message `Timeframe '<tf>' not supported.` (the quotes around the
token are written with escapes). -/
def tfMsg (tf : Timeframe) : String :=
  "Timeframe \x27" ++ tfToken tf ++ "\x27 not supported."

/-- `parseExchangeData`: the per-exchange conditional chain extracting
`longPercent` / `shortPercent` from the raw `info` object.  Each branch
fires only when the exchange id matches and the consulted fields are
present; otherwise both results stay `null`. -/
def parseExchangeData (exchangeId : String) (info : CcxtInfo) :
    Option ℚ × Option ℚ :=
  if exchangeId = "binanceusdm" then
    match info.longAccount, info.shortAccount with
    | some la, some sa => (some (la * 100), some (sa * 100))
    | _, _ => (none, none)
  else if exchangeId = "bitget" then
    match info.longAccountRatio, info.shortAccountRatio with
    | some la, some sa => (some (la * 100), some (sa * 100))
    | _, _ => (none, none)
  else if exchangeId = "okx" then
    match info.longShortRatio with
    | some ratio =>
      let short : ℚ := 1 / (ratio + 1)
      let long : ℚ := 1 - short
      (some (long * 100), some (short * 100))
    | none => (none, none)
  else if exchangeId = "bybit" then
    match info.buyRatio, info.sellRatio with
    | some b, some s => (some (b * 100), some (s * 100))
    | _, _ => (none, none)
  else (none, none)

/-- The `catch (e) { return { exchange, status: Error, message: e.message } }`
block shared (textually repeated) by every adapter path. -/
def caught (exchangeId : String) (body : Except String LongShortRatioData) :
    LongShortRatioData :=
  match body with
  | Except.ok r => r
  | Except.error m =>
    { exchange := exchangeId, status := Status.Error, message := some m }

/-- The same `try/catch` viewed at the exception level: the handler turns
every thrown message into a normally-returned record, so the combined
computation is an `Except` value that is provably never `error`. -/
def caughtE (exchangeId : String) (body : Except String LongShortRatioData) :
    Except String LongShortRatioData :=
  match body with
  | Except.ok r => Except.ok r
  | Except.error m =>
    Except.ok { exchange := exchangeId, status := Status.Error, message := some m }

/-- Body of the Huobi `try` block: direct `axios` call, data-presence
guard, and normalization of the raw buy/sell ratios. -/
def huobiBody (fetch : String → String → Except String (Option HuobiEntry))
    (requestedSymbol : String) (uiTimeframe : Timeframe) :
    Except String LongShortRatioData :=
  let contractCode := requestedSymbol ++ "-USDT"
  match fetch contractCode (huobiPeriod uiTimeframe) with
  | Except.error m => Except.error m
  | Except.ok latestData =>
    match latestData with
    | none =>
      Except.ok { exchange := "huobi", status := Status.Error,
                  message := some "Invalid data from Huobi API." }
    | some d =>
      match d.buy_ratio, d.sell_ratio with
      | some buyRatio, some sellRatio =>
        let totalRatio := buyRatio + sellRatio
        let longPercent := if 0 < totalRatio then buyRatio / totalRatio * 100 else 0
        let shortPercent := if 0 < totalRatio then sellRatio / totalRatio * 100 else 0
        Except.ok { exchange := "huobi", status := Status.Success,
                    longShortRatio := some (if 0 < sellRatio then buyRatio / sellRatio else 0),
                    longPercent := some longPercent,
                    shortPercent := some shortPercent }
      | _, _ =>
        Except.ok { exchange := "huobi", status := Status.Error,
                    message := some "Invalid data from Huobi API." }

/-- Body of the Kraken Futures `try` block.  Unreachable from the
configured exchange list; kept for completeness.  Empty parallel arrays
for `shortPercent` / `ratio` would yield NaN upstream and are modelled
as 0 here (dead code from the aggregator's point of view). -/
def krakenBody (fetch : String → Nat → Except String (Option KrakenData))
    (requestedSymbol : String) (uiTimeframe : Timeframe) :
    Except String LongShortRatioData :=
  let symbol := requestedSymbol.toLower ++ "usd"
  let interval := krakenTimeframeMap uiTimeframe
  match fetch symbol interval with
  | Except.error m => Except.error m
  | Except.ok latestData =>
    match latestData with
    | none =>
      Except.ok { exchange := "krakenfutures", status := Status.Error,
                  message := some "No data returned from Kraken API." }
    | some d =>
      if d.longPercent = [] then
        Except.ok { exchange := "krakenfutures", status := Status.Error,
                    message := some "No data returned from Kraken API." }
      else
        Except.ok { exchange := "krakenfutures", status := Status.Success,
                    longShortRatio := some (d.ratio.getLastD 0),
                    longPercent := some (d.longPercent.getLastD 0 * 100),
                    shortPercent := some (d.shortPercent.getLastD 0 * 100) }

/-- Body of the Gate.io `try` block: capability lookup, direct `axios`
call, data-presence guard (JavaScript falsiness conflates a ratio of 0
with an absent field), and the ratio-only percentage derivation. -/
def gateioBody (fetch : String → String → Except String (Option GateEntry))
    (requestedSymbol : String) (uiTimeframe : Timeframe) :
    Except String LongShortRatioData :=
  let contract := requestedSymbol ++ "_USDT"
  match gateioTimeframes uiTimeframe with
  | none =>
    Except.ok { exchange := "gateio", status := Status.Error,
                message := some (tfMsg uiTimeframe) }
  | some interval =>
    match fetch contract interval with
    | Except.error m => Except.error m
    | Except.ok latestData =>
      match latestData with
      | none =>
        Except.ok { exchange := "gateio", status := Status.Error,
                    message := some "No data returned from Gate.io API." }
      | some d =>
        match d.top_lsr_account with
        | none =>
          Except.ok { exchange := "gateio", status := Status.Error,
                      message := some "No data returned from Gate.io API." }
        | some ratio =>
          if ratio = 0 then
            Except.ok { exchange := "gateio", status := Status.Error,
                        message := some "No data returned from Gate.io API." }
          else
            let short : ℚ := 1 / (ratio + 1)
            let long : ℚ := 1 - short
            Except.ok { exchange := "gateio", status := Status.Success,
                        longShortRatio := some ratio,
                        longPercent := some (long * 100),
                        shortPercent := some (short * 100) }

/-- Body of the standard ccxt `try` block: capability flag check,
history fetch, empty-history guard, and `parseExchangeData`. -/
def ccxtBody (has : Bool)
    (cfetch : String → String → Except String (List CcxtEntry))
    (exchangeId requestedSymbol exchangeSpecificTimeframe : String) :
    Except String LongShortRatioData :=
  let isBybit := exchangeId = "bybit"
  let symbol := if isBybit then requestedSymbol ++ "USDT"
                else requestedSymbol ++ "/USDT:USDT"
  if has then
    match cfetch symbol exchangeSpecificTimeframe with
    | Except.error m => Except.error m
    | Except.ok history =>
      match history with
      | [] =>
        Except.ok { exchange := exchangeId, status := Status.Error,
                    message := some "Exchange returned no data." }
      | latestRatioData :: _ =>
        let ps := parseExchangeData exchangeId latestRatioData.info
        Except.ok { exchange := exchangeId, status := Status.Success,
                    longShortRatio := latestRatioData.longShortRatio,
                    longPercent := ps.1,
                    shortPercent := ps.2,
                    info := some latestRatioData.info }
  else
    Except.ok { exchange := exchangeId, status := Status.NotSupported }

/-- The standard ccxt path of the adapter closure: the timeframe
capability check sits before the `try` block (it is pure and cannot
throw), then the body runs under `catch`. -/
def ccxtBranch (has : Bool)
    (cfetch : String → String → Except String (List CcxtEntry))
    (exchangeId requestedSymbol : String) (uiTimeframe : Timeframe) :
    LongShortRatioData :=
  match timeframeMapLookup exchangeId with
  | none =>
    { exchange := exchangeId, status := Status.Error, message := some (tfMsg uiTimeframe) }
  | some m =>
    match m uiTimeframe with
    | none =>
      { exchange := exchangeId, status := Status.Error, message := some (tfMsg uiTimeframe) }
    | some exchangeSpecificTimeframe =>
      caught exchangeId
        (ccxtBody has cfetch exchangeId requestedSymbol exchangeSpecificTimeframe)

/-- The per-exchange closure mapped over the configured exchange list
(the `exchanges.map(async (exchangeId) => ...)` lambda), with every
`try/catch` already resolved by `caught`. -/
def runAdapter (env : Env) (requestedSymbol : String) (uiTimeframe : Timeframe)
    (exchangeId : String) : LongShortRatioData :=
  if exchangeId = "huobi" then
    caught "huobi" (huobiBody env.huobiGet requestedSymbol uiTimeframe)
  else if exchangeId = "krakenfutures" then
    caught "krakenfutures" (krakenBody env.krakenGet requestedSymbol uiTimeframe)
  else if exchangeId = "gateio" then
    caught "gateio" (gateioBody env.gateioGet requestedSymbol uiTimeframe)
  else
    ccxtBranch (env.ccxtHas exchangeId) (env.ccxtFetch exchangeId)
      exchangeId requestedSymbol uiTimeframe

/-- The same closure at the exception level: an `Except.error` value here
would be a rejected promise escaping to `Promise.all`. -/
def runAdapterE (env : Env) (requestedSymbol : String) (uiTimeframe : Timeframe)
    (exchangeId : String) : Except String LongShortRatioData :=
  if exchangeId = "huobi" then
    caughtE "huobi" (huobiBody env.huobiGet requestedSymbol uiTimeframe)
  else if exchangeId = "krakenfutures" then
    caughtE "krakenfutures" (krakenBody env.krakenGet requestedSymbol uiTimeframe)
  else if exchangeId = "gateio" then
    caughtE "gateio" (gateioBody env.gateioGet requestedSymbol uiTimeframe)
  else
    match timeframeMapLookup exchangeId with
    | none =>
      Except.ok { exchange := exchangeId, status := Status.Error,
                  message := some (tfMsg uiTimeframe) }
    | some m =>
      match m uiTimeframe with
      | none =>
        Except.ok { exchange := exchangeId, status := Status.Error,
                    message := some (tfMsg uiTimeframe) }
      | some exchangeSpecificTimeframe =>
        caughtE exchangeId
          (ccxtBody (env.ccxtHas exchangeId) (env.ccxtFetch exchangeId)
            exchangeId requestedSymbol exchangeSpecificTimeframe)

/-- The statically configured exchange list of the aggregator. -/
def exchanges : List String :=
  ["binanceusdm", "bybit", "okx", "bitget", "huobi", "gateio"]

/-- The GET handler: query-parameter defaulting (a missing or empty
`symbol` falls back to `BTC` via JavaScript `||`; a missing `timeframe`
falls back to `5m`) followed by the fan-out over the configured
exchanges joined by `Promise.all`. -/
def GET (env : Env) (symbolParam : Option String) (timeframeParam : Option Timeframe) :
    List LongShortRatioData :=
  let requestedSymbol :=
    match symbolParam with
    | none => "BTC"
    | some s => if s = "" then "BTC" else s
  let uiTimeframe :=
    match timeframeParam with
    | none => Timeframe.tf5m
    | some t => t
  exchanges.map (runAdapter env requestedSymbol uiTimeframe)

/-- Whether the adapter closure for `exchangeId` reaches a network request
(an `axios.get` or a `fetchLongShortRatioHistory` call) on the given
timeframe, read off the control flow of the source: Huobi and Kraken
always call out; Gate.io calls out after its (total) table lookup; the
ccxt path calls out only when the capability check passes and the ccxt
client advertises the feature. -/
def attemptsNetwork (env : Env) (uiTimeframe : Timeframe) (exchangeId : String) : Bool :=
  if exchangeId = "huobi" then true
  else if exchangeId = "krakenfutures" then true
  else if exchangeId = "gateio" then (gateioTimeframes uiTimeframe).isSome
  else
    match timeframeMapLookup exchangeId with
    | none => false
    | some m => (m uiTimeframe).isSome && env.ccxtHas exchangeId

/-- `Promise.all` reassembly: given the arrival events of the adapter
promises (each tagged with the index of its promise, in arbitrary
completion order), slot `i` of the output is the record delivered for
index `i`. -/
def promiseAll (n : Nat) (arrivals : List (Nat × LongShortRatioData)) :
    List (Option LongShortRatioData) :=
  (List.range n).map fun i => (arrivals.find? fun p => p.1 == i).map Prod.snd

/-- A placeholder record used only as the default of `List.getD`. -/
def noRecord : LongShortRatioData :=
  { exchange := "", status := Status.Error }

/-- Well-formed raw `info` payload: fraction pairs sum to 1 and the
long/short ratio is nonnegative, as real exchange feeds provide. -/
def InfoWF (i : CcxtInfo) : Prop :=
  (∀ la sa, i.longAccount = some la → i.shortAccount = some sa → la + sa = 1) ∧
  (∀ la sa, i.longAccountRatio = some la → i.shortAccountRatio = some sa → la + sa = 1) ∧
  (∀ b s, i.buyRatio = some b → i.sellRatio = some s → b + s = 1) ∧
  (∀ r, i.longShortRatio = some r → 0 ≤ r)

/-- Well-formed upstream world: every delivered ccxt history entry has a
well-formed `info`, Huobi buy/sell ratios are nonnegative with positive
total, and the Gate.io ratio is nonnegative. -/
def EnvWF (env : Env) : Prop :=
  (∀ e sym t hist, env.ccxtFetch e sym t = Except.ok hist →
    ∀ entry ∈ hist, InfoWF entry.info) ∧
  (∀ c p d, env.huobiGet c p = Except.ok (some d) →
    ∀ b s, d.buy_ratio = some b → d.sell_ratio = some s → 0 < b + s) ∧
  (∀ c iv d, env.gateioGet c iv = Except.ok (some d) →
    ∀ r, d.top_lsr_account = some r → 0 ≤ r)

/-- Agreement of two upstream worlds everywhere except at the exchange
`j`: every adapter other than `j` observes identical upstream
behaviour. -/
def envAgreesExcept (j : String) (e1 e2 : Env) : Prop :=
  (j ≠ "huobi" → e1.huobiGet = e2.huobiGet) ∧
  (j ≠ "krakenfutures" → e1.krakenGet = e2.krakenGet) ∧
  (j ≠ "gateio" → e1.gateioGet = e2.gateioGet) ∧
  (∀ ex, ex ≠ j → e1.ccxtHas ex = e2.ccxtHas ex ∧ e1.ccxtFetch ex = e2.ccxtFetch ex)

/-- The record-shape invariant of the normalized output: a record that is
not `Success` carries no percent fields, and the two percent fields are
present or absent together. -/
def RecordInv (r : LongShortRatioData) : Prop :=
  (r.status ≠ Status.Success → r.longPercent = none ∧ r.shortPercent = none) ∧
  (r.longPercent.isSome ↔ r.shortPercent.isSome)

/-- A ccxt history entry carrying only a long/short ratio of 5/2 (the
shape okx delivers). -/
def entryOkx : CcxtEntry :=
  { longShortRatio := some (5 / 2), info := { longShortRatio := some (5 / 2) } }

/-- A concrete healthy upstream world: Huobi delivers buy 3 / sell 1,
Gate.io a ratio of 5/2, and every ccxt exchange one okx-shaped entry. -/
def envDemo : Env :=
  { huobiGet := fun _ _ => Except.ok (some { buy_ratio := some 3, sell_ratio := some 1 }),
    krakenGet := fun _ _ => Except.error "unused",
    gateioGet := fun _ _ => Except.ok (some { top_lsr_account := some (5 / 2) }),
    ccxtHas := fun _ => true,
    ccxtFetch := fun _ _ _ => Except.ok [entryOkx] }

/-- Huobi payload with buy 300 / sell 100. -/
def huobi300 : Option HuobiEntry := some { buy_ratio := some 300, sell_ratio := some 100 }

/-- Huobi payload with buy 0 / sell 0. -/
def huobi00 : Option HuobiEntry := some { buy_ratio := some 0, sell_ratio := some 0 }

/-- Gate.io payload with a `top_lsr_account` of exactly 0. -/
def gate0 : Option GateEntry := some { top_lsr_account := some 0 }

/-- Like `envDemo`, but Huobi delivers buy 300 / sell 100. -/
def envHuobi300 : Env :=
  { envDemo with huobiGet := fun _ _ => Except.ok huobi300 }

/-- Like `envDemo`, but Huobi delivers buy 0 / sell 0. -/
def envHuobi00 : Env :=
  { envDemo with huobiGet := fun _ _ => Except.ok huobi00 }

/-- Like `envDemo`, but the Huobi transport fails. -/
def envErr : Env :=
  { envDemo with huobiGet := fun _ _ => Except.error "Network Error" }

/-- Like `envDemo`, but every ccxt client reports the long/short history
feature as unavailable. -/
def envNoFeat : Env :=
  { envDemo with ccxtHas := fun _ => false }

/-- Like `envDemo`, but Gate.io delivers a `top_lsr_account` of exactly 0. -/
def envGate0 : Env :=
  { envDemo with gateioGet := fun _ _ => Except.ok gate0 }

/-- A concrete arrival order for the adapter promises of
`GET envDemo none none`: the completion order is the reverse of the
configuration order. -/
def arrDemo : List (Nat × LongShortRatioData) :=
  ((GET envDemo none none).enum).reverse

/-! ## Helper lemmas -/

theorem caughtE_eq_ok (exchangeId : String) (body : Except String LongShortRatioData) :
    caughtE exchangeId body = Except.ok (caught exchangeId body) := by
  cases body <;> rfl

theorem huobiBody_ok_exchange (fetch : String → String → Except String (Option HuobiEntry))
    (s : String) (tf : Timeframe) (r : LongShortRatioData)
    (h : huobiBody fetch s tf = Except.ok r) : r.exchange = "huobi" := by
  simp only [huobiBody] at h
  repeat' split at h
  all_goals try exact Except.noConfusion h
  all_goals injection h with h2
  all_goals subst h2
  all_goals rfl

theorem krakenBody_ok_exchange (fetch : String → Nat → Except String (Option KrakenData))
    (s : String) (tf : Timeframe) (r : LongShortRatioData)
    (h : krakenBody fetch s tf = Except.ok r) : r.exchange = "krakenfutures" := by
  simp only [krakenBody] at h
  repeat' split at h
  all_goals try exact Except.noConfusion h
  all_goals injection h with h2
  all_goals subst h2
  all_goals rfl

theorem gateioBody_ok_exchange (fetch : String → String → Except String (Option GateEntry))
    (s : String) (tf : Timeframe) (r : LongShortRatioData)
    (h : gateioBody fetch s tf = Except.ok r) : r.exchange = "gateio" := by
  simp only [gateioBody] at h
  repeat' split at h
  all_goals try exact Except.noConfusion h
  all_goals injection h with h2
  all_goals subst h2
  all_goals rfl

theorem ccxtBody_ok_exchange (has : Bool)
    (cfetch : String → String → Except String (List CcxtEntry))
    (ex s t : String) (r : LongShortRatioData)
    (h : ccxtBody has cfetch ex s t = Except.ok r) : r.exchange = ex := by
  simp only [ccxtBody] at h
  repeat' split at h
  all_goals try exact Except.noConfusion h
  all_goals injection h with h2
  all_goals subst h2
  all_goals rfl

theorem caught_exchange (exchangeId : String) (body : Except String LongShortRatioData)
    (h : ∀ r, body = Except.ok r → r.exchange = exchangeId) :
    (caught exchangeId body).exchange = exchangeId := by
  cases hb : body with
  | ok r => show r.exchange = exchangeId; exact h r hb
  | error m => rfl

theorem runAdapter_huobi (env : Env) (s : String) (tf : Timeframe) :
    runAdapter env s tf "huobi" = caught "huobi" (huobiBody env.huobiGet s tf) := rfl

theorem runAdapter_gateio (env : Env) (s : String) (tf : Timeframe) :
    runAdapter env s tf "gateio" = caught "gateio" (gateioBody env.gateioGet s tf) := rfl

theorem runAdapter_ccxt (env : Env) (s : String) (tf : Timeframe) (ex : String)
    (h1 : ex ≠ "huobi") (h2 : ex ≠ "krakenfutures") (h3 : ex ≠ "gateio") :
    runAdapter env s tf ex = ccxtBranch (env.ccxtHas ex) (env.ccxtFetch ex) ex s tf := by
  unfold runAdapter
  rw [if_neg h1, if_neg h2, if_neg h3]

theorem runAdapter_exchange (env : Env) (s : String) (tf : Timeframe) (ex : String) :
    (runAdapter env s tf ex).exchange = ex := by
  unfold runAdapter
  split_ifs with h1 h2 h3
  · subst h1
    exact caught_exchange _ _ (fun r hr => huobiBody_ok_exchange _ _ _ r hr)
  · subst h2
    exact caught_exchange _ _ (fun r hr => krakenBody_ok_exchange _ _ _ r hr)
  · subst h3
    exact caught_exchange _ _ (fun r hr => gateioBody_ok_exchange _ _ _ r hr)
  · unfold ccxtBranch
    cases timeframeMapLookup ex with
    | none => rfl
    | some m =>
      dsimp only
      cases m tf with
      | none => rfl
      | some t => exact caught_exchange _ _ (fun r hr => ccxtBody_ok_exchange _ _ _ _ _ r hr)

theorem find?_eq_of_unique {α : Type} (p : α → Bool) :
    ∀ (l : List α) (a : α), a ∈ l → p a = true →
      (∀ b ∈ l, p b = true → b = a) → l.find? p = some a := by
  intro l
  induction l with
  | nil => intro a ha _ _; cases ha
  | cons x xs ih =>
    intro a ha hp hu
    by_cases hx : p x = true
    · have hxa : x = a := hu x (List.mem_cons_self x xs) hx
      rw [List.find?_cons_of_pos _ hx, hxa]
    · have hax : a ≠ x := by
        intro he; exact hx (he ▸ hp)
      have ha2 : a ∈ xs := by
        cases ha with
        | head => exact absurd rfl hax
        | tail _ h => exact h
      rw [List.find?_cons_of_neg _ (by simpa using hx)]
      exact ih a ha2 hp (fun b hb hpb => hu b (List.mem_cons_of_mem _ hb) hpb)

theorem find?_perm_enum (rs : List LongShortRatioData)
    (arr : List (Nat × LongShortRatioData)) (h : arr.Perm rs.enum)
    (i : Nat) (hi : i < rs.length) :
    arr.find? (fun p => p.1 == i) = some (i, rs.get ⟨i, hi⟩) := by
  apply find?_eq_of_unique
  · have hmem : (i, rs.get ⟨i, hi⟩) ∈ rs.enum := by
      rw [List.mk_mem_enum_iff_getElem?]
      simp [List.getElem?_eq_getElem hi]
    exact h.symm.subset hmem
  · simp
  · intro b hb hpb
    have hb2 : b ∈ rs.enum := h.subset hb
    have hb3 : rs[b.1]? = some b.2 := List.mem_enum_iff_getElem?.mp hb2
    have hb1 : b.1 = i := by simpa using hpb
    rw [hb1] at hb3
    rw [List.getElem?_eq_getElem hi] at hb3
    have : b.2 = rs.get ⟨i, hi⟩ := by
      injection hb3 with h4
      simpa using h4.symm
    calc b = (b.1, b.2) := rfl
    _ = (i, rs.get ⟨i, hi⟩) := by rw [hb1, this]

theorem promiseAll_perm (rs : List LongShortRatioData)
    (arr : List (Nat × LongShortRatioData)) (h : arr.Perm rs.enum) :
    promiseAll rs.length arr = rs.map some := by
  unfold promiseAll
  apply List.ext_get
  · simp
  · intro n h1 h2
    simp only [List.get_eq_getElem, List.getElem_map, List.getElem_range]
    have hn : n < rs.length := by simpa using h1
    rw [find?_perm_enum rs arr h n hn]
    simp

/-! ## Claims -/

/-- Claim C1: for every request, the GET handler returns exactly one
record per configured exchange — six records for the configured list —
the i-th record corresponding to the i-th configured exchange; and the
`Promise.all` reassembly of the adapter results from any arrival
(completion) order yields exactly that list, so the output is
independent of which adapter completes first. -/
theorem c1_aggregate_complete_ordered (env : Env) (sp : Option String)
    (tfp : Option Timeframe) (arr : List (Nat × LongShortRatioData))
    (h : arr.Perm ((GET env sp tfp).enum)) :
    (GET env sp tfp).length = 6 ∧
    (∀ i, i < 6 → ((GET env sp tfp).getD i noRecord).exchange = exchanges.getD i "") ∧
    promiseAll 6 arr = (GET env sp tfp).map some := by
  refine ⟨rfl, ?_, ?_⟩
  · intro i hi
    interval_cases i <;> simp [GET, exchanges, List.getD, runAdapter_exchange]
  · have h6 : (6 : Nat) = (GET env sp tfp).length := rfl
    rw [h6]
    exact promiseAll_perm _ arr h

/-- Witness for C1: at the concrete environment `envDemo` with the
adapter promises completing in reverse configuration order, the
reassembled output is still the configuration-ordered record list. -/
theorem c1_witness :
    promiseAll 6 arrDemo = (GET envDemo none none).map some :=
  (c1_aggregate_complete_ordered envDemo none none arrDemo (List.reverse_perm _)).2.2

theorem runAdapter_env_agree (s : String) (tf : Timeframe) (j : String) (e1 e2 : Env)
    (h : envAgreesExcept j e1 e2) (ex : String) (hne : ex ≠ j) :
    runAdapter e1 s tf ex = runAdapter e2 s tf ex := by
  unfold runAdapter
  split_ifs with h1 h2 h3
  · subst h1; rw [h.1 (Ne.symm hne)]
  · subst h2; rw [h.2.1 (Ne.symm hne)]
  · subst h3; rw [h.2.2.1 (Ne.symm hne)]
  · obtain ⟨hh, hf⟩ := h.2.2.2 ex hne
    rw [hh, hf]

/-- Claim C9: for two runs of the same aggregate request whose upstream
worlds differ only in the outcome seen by the adapter `j`, the result
record of every other position of the output list is identical across
the two runs. -/
theorem c9_isolation (sp : Option String) (tfp : Option Timeframe) (j : String)
    (e1 e2 : Env) (h : envAgreesExcept j e1 e2) (i : Nat) (hi : i < 6)
    (hne : exchanges.getD i "" ≠ j) :
    (GET e1 sp tfp).getD i noRecord = (GET e2 sp tfp).getD i noRecord := by
  interval_cases i <;>
    simp only [GET, exchanges, List.getD, List.map_cons, List.getElem?_cons_zero,
      List.getElem?_cons_succ, Option.getD_some] <;>
    exact runAdapter_env_agree _ _ j e1 e2 h _ (by simpa [exchanges, List.getD] using hne)

/-- Witness for C9: a Huobi transport failure (`envErr`) versus a healthy
Huobi feed (`envDemo`) leaves the first record (binanceusdm) of the
aggregate output unchanged. -/
theorem c9_witness :
    (GET envErr (some "BTC") (some Timeframe.tf5m)).getD 0 noRecord =
    (GET envDemo (some "BTC") (some Timeframe.tf5m)).getD 0 noRecord :=
  c9_isolation (some "BTC") (some Timeframe.tf5m) "huobi" envErr envDemo
    ⟨fun hc => absurd rfl hc, fun _ => rfl, fun _ => rfl, fun ex hx => ⟨rfl, rfl⟩⟩
    0 (by norm_num) (by decide)

theorem parseExchangeData_both (ex : String) (info : CcxtInfo) :
    ((parseExchangeData ex info).1.isSome ↔ (parseExchangeData ex info).2.isSome) := by
  unfold parseExchangeData
  repeat' split
  all_goals exact Iff.rfl

theorem caught_inv (exchangeId : String) (body : Except String LongShortRatioData)
    (h : ∀ r, body = Except.ok r → RecordInv r) : RecordInv (caught exchangeId body) := by
  cases hb : body with
  | ok r => exact h r hb
  | error m => exact ⟨fun _ => ⟨rfl, rfl⟩, Iff.rfl⟩

theorem runAdapter_inv (env : Env) (s : String) (tf : Timeframe) (ex : String) :
    RecordInv (runAdapter env s tf ex) := by
  unfold runAdapter
  split_ifs with h1 h2 h3
  · apply caught_inv; intro r hr
    simp only [huobiBody] at hr
    repeat' split at hr
    all_goals try exact Except.noConfusion hr
    all_goals injection hr with h4
    all_goals subst h4
    all_goals simp [RecordInv]
  · apply caught_inv; intro r hr
    simp only [krakenBody] at hr
    repeat' split at hr
    all_goals try exact Except.noConfusion hr
    all_goals injection hr with h4
    all_goals subst h4
    all_goals simp [RecordInv]
  · apply caught_inv; intro r hr
    simp only [gateioBody] at hr
    repeat' split at hr
    all_goals try exact Except.noConfusion hr
    all_goals injection hr with h4
    all_goals subst h4
    all_goals simp [RecordInv]
  · unfold ccxtBranch
    cases timeframeMapLookup ex with
    | none => exact ⟨fun _ => ⟨rfl, rfl⟩, Iff.rfl⟩
    | some m =>
      dsimp only
      cases m tf with
      | none => exact ⟨fun _ => ⟨rfl, rfl⟩, Iff.rfl⟩
      | some t =>
        apply caught_inv; intro r hr
        simp only [ccxtBody] at hr
        repeat' split at hr
        all_goals try exact Except.noConfusion hr
        all_goals injection hr with h4
        all_goals subst h4
        · exact ⟨fun _ => ⟨rfl, rfl⟩, Iff.rfl⟩
        · exact ⟨fun hc => absurd rfl hc, parseExchangeData_both _ _⟩
        · exact ⟨fun _ => ⟨rfl, rfl⟩, Iff.rfl⟩

/-- Claim C3 (amended): every record's status is one of Success,
NotSupported, Error; non-Success records carry neither percent field;
and the two percent fields are always present or absent together — but a
Success record may carry no percent fields at all (when the ccxt path's
`parseExchangeData` does not recognize the upstream `info` shape), so
the original "Success always carries both percents" fails. -/
theorem c3_status_percent_shape (env : Env) (s : String) (tf : Timeframe) (ex : String) :
    ((runAdapter env s tf ex).status = Status.Success ∨
     (runAdapter env s tf ex).status = Status.NotSupported ∨
     (runAdapter env s tf ex).status = Status.Error) ∧
    ((runAdapter env s tf ex).status ≠ Status.Success →
      (runAdapter env s tf ex).longPercent = none ∧
      (runAdapter env s tf ex).shortPercent = none) ∧
    ((runAdapter env s tf ex).longPercent.isSome ↔
      (runAdapter env s tf ex).shortPercent.isSome) := by
  have hinv := runAdapter_inv env s tf ex
  refine ⟨?_, hinv.1, hinv.2⟩
  cases hst : (runAdapter env s tf ex).status
  · exact Or.inl rfl
  · exact Or.inr (Or.inl rfl)
  · exact Or.inr (Or.inr rfl)

/-- Counterexample for C3 as stated: the binanceusdm adapter, fed a
well-delivered history entry whose `info` lacks the binance account
fields (`envDemo` delivers an okx-shaped entry), returns a `Success`
record that carries neither `longPercent` nor `shortPercent`. -/
theorem c3_counterexample :
    (runAdapter envDemo "BTC" Timeframe.tf5m "binanceusdm").status = Status.Success ∧
    (runAdapter envDemo "BTC" Timeframe.tf5m "binanceusdm").longPercent = none ∧
    (runAdapter envDemo "BTC" Timeframe.tf5m "binanceusdm").shortPercent = none := by
  refine ⟨?_, ?_, ?_⟩ <;>
    simp [runAdapter, ccxtBranch, ccxtBody, caught, envDemo, entryOkx, parseExchangeData,
      timeframeMapLookup, binanceTimeframes]

/-- Claim C6: the Huobi adapter, given upstream buy and sell values,
returns `longPercent = buy/total*100` and `shortPercent = sell/total*100`
when `total = buy+sell > 0` and 0 for both when the total is not
positive, and `longShortRatio = buy/sell` when `sell > 0` and 0
otherwise — with no division by zero. -/
theorem c6_huobi_raw_volume (env : Env) (s : String) (tf : Timeframe) (b sv : ℚ)
    (h : env.huobiGet (s ++ "-USDT") (huobiPeriod tf) =
      Except.ok (some { buy_ratio := some b, sell_ratio := some sv })) :
    runAdapter env s tf "huobi" =
      { exchange := "huobi", status := Status.Success,
        longShortRatio := some (if 0 < sv then b / sv else 0),
        longPercent := some (if 0 < b + sv then b / (b + sv) * 100 else 0),
        shortPercent := some (if 0 < b + sv then sv / (b + sv) * 100 else 0) } := by
  rw [runAdapter_huobi]
  simp only [huobiBody, h]
  rfl

/-- Witness for C6: buy 300 / sell 100 yields exactly 75%, 25% and ratio
3; buy 0 / sell 0 yields 0, 0, 0 through the zero-division guards. -/
theorem c6_witness :
    runAdapter envHuobi300 "BTC" Timeframe.tf5m "huobi" =
      { exchange := "huobi", status := Status.Success, longShortRatio := some 3,
        longPercent := some 75, shortPercent := some 25 } ∧
    runAdapter envHuobi00 "BTC" Timeframe.tf5m "huobi" =
      { exchange := "huobi", status := Status.Success, longShortRatio := some 0,
        longPercent := some 0, shortPercent := some 0 } := by
  constructor
  · rw [c6_huobi_raw_volume envHuobi300 "BTC" Timeframe.tf5m 300 100 rfl]
    norm_num
  · rw [c6_huobi_raw_volume envHuobi00 "BTC" Timeframe.tf5m 0 0 rfl]
    norm_num

theorem caught_msg (exchangeId : String) (body : Except String LongShortRatioData)
    (h : ∀ r, body = Except.ok r → r.status = Status.Error → r.message.isSome = true) :
    (caught exchangeId body).status = Status.Error →
      ((caught exchangeId body).message).isSome = true := by
  cases hb : body with
  | ok r => exact h r hb
  | error m => intro _; rfl

/-- Claim C8 (amended): every record with `status = Error` carries a
message, but a `Not Supported` record carries none — the source returns
`{ exchange, status: Not Supported }` with no message field, so the
original claim fails for `NotSupported`. -/
theorem c8_error_has_message (env : Env) (s : String) (tf : Timeframe) (ex : String)
    (h : (runAdapter env s tf ex).status = Status.Error) :
    ((runAdapter env s tf ex).message).isSome = true := by
  revert h
  unfold runAdapter
  split_ifs with h1 h2 h3
  · apply caught_msg; intro r hr
    simp only [huobiBody] at hr
    repeat' split at hr
    all_goals try exact Except.noConfusion hr
    all_goals injection hr with h4
    all_goals subst h4
    all_goals intro hst
    all_goals first | rfl | exact Status.noConfusion hst
  · apply caught_msg; intro r hr
    simp only [krakenBody] at hr
    repeat' split at hr
    all_goals try exact Except.noConfusion hr
    all_goals injection hr with h4
    all_goals subst h4
    all_goals intro hst
    all_goals first | rfl | exact Status.noConfusion hst
  · apply caught_msg; intro r hr
    simp only [gateioBody] at hr
    repeat' split at hr
    all_goals try exact Except.noConfusion hr
    all_goals injection hr with h4
    all_goals subst h4
    all_goals intro hst
    all_goals first | rfl | exact Status.noConfusion hst
  · unfold ccxtBranch
    cases timeframeMapLookup ex with
    | none => intro _; rfl
    | some m =>
      dsimp only
      cases m tf with
      | none => intro _; rfl
      | some t =>
        apply caught_msg; intro r hr
        simp only [ccxtBody] at hr
        repeat' split at hr
        all_goals try exact Except.noConfusion hr
        all_goals injection hr with h4
        all_goals subst h4
        all_goals intro hst
        all_goals first | rfl | exact Status.noConfusion hst

/-- Witness for C8: the record produced for a failed Huobi transport has
its message present. -/
theorem c8_witness :
    ((runAdapter envErr "BTC" Timeframe.tf5m "huobi").message).isSome = true :=
  c8_error_has_message envErr "BTC" Timeframe.tf5m "huobi" rfl

/-- Counterexample for C8 as stated: when the binanceusdm ccxt client
reports the feature as unavailable, the adapter returns a
`Not Supported` record without any message. -/
theorem c8_counterexample :
    (runAdapter envNoFeat "BTC" Timeframe.tf5m "binanceusdm").status = Status.NotSupported ∧
    (runAdapter envNoFeat "BTC" Timeframe.tf5m "binanceusdm").message = none := by
  constructor <;> rfl

/-- Claim C7 (amended): for the five adapters that own an entry of the
timeframe capability table (binanceusdm, bybit, okx, bitget, gateio), a
timeframe absent from the adapter's table yields the
`Timeframe not supported` Error record and no network request is
attempted; the Huobi adapter, by contrast, has no capability table at
all and always attempts its network call (see the counterexample). -/
theorem c7_capability_check (env : Env) (s : String) (tf : Timeframe) (ex : String)
    (hex : ex ∈ ["binanceusdm", "bybit", "okx", "bitget", "gateio"])
    (habs : (timeframeMapLookup ex).bind (fun m => m tf) = none) :
    runAdapter env s tf ex =
      { exchange := ex, status := Status.Error, message := some (tfMsg tf) } ∧
    attemptsNetwork env tf ex = false := by
  fin_cases hex <;> cases tf <;>
    first
      | exact ⟨rfl, rfl⟩
      | (simp [timeframeMapLookup, binanceTimeframes, bybitTimeframes, okxTimeframes,
          bitgetTimeframes, gateioTimeframes] at habs)

/-- Witness for C7: requesting `1d` from okx (absent from okx's table)
returns the capability-gap Error record and attempts no network call. -/
theorem c7_witness :
    runAdapter envDemo "BTC" Timeframe.tf1d "okx" =
      { exchange := "okx", status := Status.Error, message := some (tfMsg Timeframe.tf1d) } ∧
    attemptsNetwork envDemo Timeframe.tf1d "okx" = false :=
  c7_capability_check envDemo "BTC" Timeframe.tf1d "okx" (by decide) rfl

/-- Counterexample for C7 as stated: Huobi has no entry in the timeframe
capability table, yet for the `1d` timeframe the adapter attempts its
network call and (given healthy upstream data) even returns `Success`,
rather than the claimed Error-without-network-call. -/
theorem c7_counterexample :
    timeframeMapLookup "huobi" = none ∧
    attemptsNetwork envDemo Timeframe.tf1d "huobi" = true ∧
    (runAdapter envHuobi300 "BTC" Timeframe.tf1d "huobi").status = Status.Success := by
  exact ⟨rfl, rfl, rfl⟩

theorem okx_ratio_success (env : Env) (s : String) (tf : Timeframe) (ts : String)
    (entry : CcxtEntry) (rest : List CcxtEntry) (r : ℚ)
    (hts : okxTimeframes tf = some ts)
    (hhas : env.ccxtHas "okx" = true)
    (hf : env.ccxtFetch "okx" (s ++ "/USDT:USDT") ts = Except.ok (entry :: rest))
    (hr : entry.info.longShortRatio = some r) :
    runAdapter env s tf "okx" =
      { exchange := "okx", status := Status.Success,
        longShortRatio := entry.longShortRatio,
        longPercent := some ((1 - 1 / (r + 1)) * 100),
        shortPercent := some ((1 / (r + 1)) * 100),
        info := some entry.info } := by
  rw [runAdapter_ccxt env s tf "okx" (by decide) (by decide) (by decide)]
  unfold ccxtBranch
  rw [show timeframeMapLookup "okx" = some okxTimeframes from rfl]
  dsimp only
  rw [hts]
  simp [ccxtBody, hhas, hf, hr, parseExchangeData, caught]

theorem gateio_ratio_success (env : Env) (s : String) (tf : Timeframe) (gi : String) (gr : ℚ)
    (hgi : gateioTimeframes tf = some gi)
    (hg : env.gateioGet (s ++ "_USDT") gi = Except.ok (some { top_lsr_account := some gr }))
    (hgr : gr ≠ 0) :
    runAdapter env s tf "gateio" =
      { exchange := "gateio", status := Status.Success,
        longShortRatio := some gr,
        longPercent := some ((1 - 1 / (gr + 1)) * 100),
        shortPercent := some ((1 / (gr + 1)) * 100) } := by
  rw [runAdapter_gateio]
  simp [gateioBody, hgi, hg, caught, hgr]

/-- Claim C5 (amended): for the ratio-only adapters, a delivered upstream
ratio `R` yields `shortPercent = 1/(R+1)*100` and
`longPercent = (1 - 1/(R+1))*100` — for okx for every nonnegative `R`,
for Gate.io only for `R > 0` (a ratio of exactly 0 is conflated with
missing data by the JavaScript falsiness guard, see the counterexample);
at `R = 5/2` the percents are within 0.01 of 28.57 and 71.43. -/
theorem c5_ratio_only_derivation (env : Env) (s : String) (tf : Timeframe) (ts : String)
    (entry : CcxtEntry) (rest : List CcxtEntry) (r : ℚ) (gi : String) (gr : ℚ)
    (h0 : 0 ≤ r) (hts : okxTimeframes tf = some ts) (hhas : env.ccxtHas "okx" = true)
    (hf : env.ccxtFetch "okx" (s ++ "/USDT:USDT") ts = Except.ok (entry :: rest))
    (hr : entry.info.longShortRatio = some r)
    (hgi : gateioTimeframes tf = some gi)
    (hg : env.gateioGet (s ++ "_USDT") gi = Except.ok (some { top_lsr_account := some gr }))
    (hgr : 0 < gr) :
    ((runAdapter env s tf "okx").shortPercent = some (1 / (r + 1) * 100) ∧
     (runAdapter env s tf "okx").longPercent = some ((1 - 1 / (r + 1)) * 100) ∧
     (runAdapter env s tf "okx").status = Status.Success) ∧
    ((runAdapter env s tf "gateio").shortPercent = some (1 / (gr + 1) * 100) ∧
     (runAdapter env s tf "gateio").longPercent = some ((1 - 1 / (gr + 1)) * 100) ∧
     (runAdapter env s tf "gateio").status = Status.Success ∧
     (runAdapter env s tf "gateio").longShortRatio = some gr) ∧
    (|1 / ((5 : ℚ) / 2 + 1) * 100 - 2857 / 100| ≤ 1 / 100 ∧
     |(1 - 1 / ((5 : ℚ) / 2 + 1)) * 100 - 7143 / 100| ≤ 1 / 100) := by
  rw [okx_ratio_success env s tf ts entry rest r hts hhas hf hr,
      gateio_ratio_success env s tf gi gr hgi hg (ne_of_gt hgr)]
  refine ⟨⟨rfl, rfl, rfl⟩, ⟨rfl, rfl, rfl, rfl⟩, ?_, ?_⟩ <;>
    (rw [abs_le]; constructor <;> norm_num)

/-- Witness for C5: at `envDemo` (okx delivers ratio 5/2) the okx record
carries `shortPercent = 1/(5/2+1)*100`. -/
theorem c5_witness :
    (runAdapter envDemo "BTC" Timeframe.tf5m "okx").shortPercent =
      some (1 / ((5 : ℚ) / 2 + 1) * 100) :=
  (c5_ratio_only_derivation envDemo "BTC" Timeframe.tf5m "5m" entryOkx [] (5 / 2) "5m" (5 / 2)
    (by norm_num) rfl rfl rfl rfl rfl rfl (by norm_num)).1.1

/-- Counterexample for C5 as stated: a delivered Gate.io ratio of
exactly 0 produces an Error record (the falsiness guard treats it as
missing data) instead of the claimed `shortPercent = 1/(0+1)*100 = 100`
Success record. -/
theorem c5_counterexample :
    (runAdapter envGate0 "BTC" Timeframe.tf5m "gateio").status = Status.Error ∧
    (runAdapter envGate0 "BTC" Timeframe.tf5m "gateio").shortPercent = none ∧
    (runAdapter envGate0 "BTC" Timeframe.tf5m "gateio").message =
      some "No data returned from Gate.io API." := by
  refine ⟨?_, ?_, ?_⟩ <;>
    simp [runAdapter, gateioBody, caught, envGate0, gate0, gateioTimeframes]

/-- Claim C2: for every input and every upstream outcome, each adapter
computation yields a `NormalizedRatio` record rather than an escaped
exception: viewed at the exception level (`runAdapterE`), the adapter
always evaluates to `Except.ok` of the record that the aggregator
collects, each internally thrown failure having been converted by the
adapter's own catch into a `status = Error` record. -/
theorem c2_adapter_never_throws (env : Env) (s : String) (tf : Timeframe) (ex : String) :
    runAdapterE env s tf ex = Except.ok (runAdapter env s tf ex) := by
  unfold runAdapterE runAdapter
  split_ifs
  · exact caughtE_eq_ok _ _
  · exact caughtE_eq_ok _ _
  · exact caughtE_eq_ok _ _
  · unfold ccxtBranch
    cases timeframeMapLookup ex with
    | none => rfl
    | some m =>
      dsimp only
      cases m tf with
      | none => rfl
      | some t => exact caughtE_eq_ok _ _

/-- Claim C10: a request without the `symbol` query parameter behaves
exactly like one with `symbol = BTC`, and one without the `timeframe`
parameter exactly like one with `timeframe = 5m`: the returned lists are
equal. -/
theorem c10_query_defaults (env : Env) (sp : Option String) (tfp : Option Timeframe) :
    GET env none tfp = GET env (some "BTC") tfp ∧
    GET env sp none = GET env sp (some Timeframe.tf5m) := by
  constructor <;> rfl


theorem ccxtBranch_success_parse (has : Bool)
    (cfetch : String → String → Except String (List CcxtEntry))
    (ex s : String) (tf : Timeframe) (lp sp : ℚ)
    (hst : (ccxtBranch has cfetch ex s tf).status = Status.Success)
    (hlp : (ccxtBranch has cfetch ex s tf).longPercent = some lp)
    (hsp : (ccxtBranch has cfetch ex s tf).shortPercent = some sp) :
    ∃ e rest sym t, cfetch sym t = Except.ok (e :: rest) ∧
      (parseExchangeData ex e.info).1 = some lp ∧
      (parseExchangeData ex e.info).2 = some sp := by
  unfold ccxtBranch at hst hlp hsp
  cases hlk : timeframeMapLookup ex with
  | none => rw [hlk] at hst; exact absurd hst (by simp)
  | some m =>
    rw [hlk] at hst hlp hsp
    dsimp only at hst hlp hsp
    cases hmt : m tf with
    | none => rw [hmt] at hst; exact absurd hst (by simp)
    | some t =>
      rw [hmt] at hst hlp hsp
      dsimp only at hst hlp hsp
      cases hb : ccxtBody has cfetch ex s t with
      | error msg => rw [hb] at hst; exact absurd hst (by simp [caught])
      | ok r =>
        rw [hb] at hst hlp hsp
        simp only [caught] at hst hlp hsp
        simp only [ccxtBody] at hb
        cases has with
        | false =>
          rw [if_neg (by simp)] at hb
          injection hb with hb2
          rw [← hb2] at hst
          exact absurd hst (by simp)
        | true =>
          rw [if_pos rfl] at hb
          cases hf : cfetch (if ex = "bybit" then s ++ "USDT" else s ++ "/USDT:USDT") t with
          | error m2 => rw [hf] at hb; exact Except.noConfusion hb
          | ok hist =>
            rw [hf] at hb
            cases hist with
            | nil =>
              dsimp only at hb
              injection hb with hb2
              rw [← hb2] at hst
              exact absurd hst (by simp)
            | cons e rest =>
              dsimp only at hb
              injection hb with hb2
              rw [← hb2] at hlp hsp
              exact ⟨e, rest, _, t, hf, by simpa using hlp, by simpa using hsp⟩

theorem huobi_success_parse (fetch : String → String → Except String (Option HuobiEntry))
    (s : String) (tf : Timeframe) (lp sp : ℚ)
    (hst : (caught "huobi" (huobiBody fetch s tf)).status = Status.Success)
    (hlp : (caught "huobi" (huobiBody fetch s tf)).longPercent = some lp)
    (hsp : (caught "huobi" (huobiBody fetch s tf)).shortPercent = some sp) :
    ∃ d b sv, fetch (s ++ "-USDT") (huobiPeriod tf) = Except.ok (some d) ∧
      d.buy_ratio = some b ∧ d.sell_ratio = some sv ∧
      lp = (if 0 < b + sv then b / (b + sv) * 100 else 0) ∧
      sp = (if 0 < b + sv then sv / (b + sv) * 100 else 0) := by
  cases hfe : fetch (s ++ "-USDT") (huobiPeriod tf) with
  | error m => simp [huobiBody, hfe, caught] at hst
  | ok latest =>
    cases latest with
    | none => simp [huobiBody, hfe, caught] at hst
    | some d =>
      cases hbr : d.buy_ratio with
      | none => simp [huobiBody, hfe, hbr, caught] at hst
      | some b =>
        cases hsr : d.sell_ratio with
        | none => simp [huobiBody, hfe, hbr, hsr, caught] at hst
        | some sv =>
          simp only [huobiBody, hfe, hbr, hsr, caught] at hlp hsp
          exact ⟨d, b, sv, rfl, hbr, hsr, by simpa using hlp.symm, by simpa using hsp.symm⟩

theorem gateio_success_parse (fetch : String → String → Except String (Option GateEntry))
    (s : String) (tf : Timeframe) (lp sp : ℚ)
    (hst : (caught "gateio" (gateioBody fetch s tf)).status = Status.Success)
    (hlp : (caught "gateio" (gateioBody fetch s tf)).longPercent = some lp)
    (hsp : (caught "gateio" (gateioBody fetch s tf)).shortPercent = some sp) :
    ∃ gi d gr, gateioTimeframes tf = some gi ∧
      fetch (s ++ "_USDT") gi = Except.ok (some d) ∧
      d.top_lsr_account = some gr ∧
      lp = (1 - 1 / (gr + 1)) * 100 ∧ sp = 1 / (gr + 1) * 100 := by
  cases hgi : gateioTimeframes tf with
  | none => simp [gateioBody, hgi, caught] at hst
  | some gi =>
    cases hfe : fetch (s ++ "_USDT") gi with
    | error m => simp [gateioBody, hgi, hfe, caught] at hst
    | ok latest =>
      cases latest with
      | none => simp [gateioBody, hgi, hfe, caught] at hst
      | some d =>
        cases hra : d.top_lsr_account with
        | none => simp [gateioBody, hgi, hfe, hra, caught] at hst
        | some gr =>
          by_cases hz : gr = 0
          · simp [gateioBody, hgi, hfe, hra, hz, caught] at hst
          · simp only [gateioBody, hgi, hfe, hra, caught, if_neg hz] at hlp hsp
            exact ⟨gi, d, gr, rfl, hfe, hra, by simpa using hlp.symm, by simpa using hsp.symm⟩

theorem envDemo_wf : EnvWF envDemo := by
  refine ⟨?_, ?_, ?_⟩
  · intro e sym t hist h entry hm
    injection h with h2
    subst h2
    rcases List.mem_singleton.mp hm with rfl
    refine ⟨?_, ?_, ?_, ?_⟩
    · intro la sa h1 h2; simp [entryOkx] at h1
    · intro la sa h1 h2; simp [entryOkx] at h1
    · intro b s2 h1 h2; simp [entryOkx] at h1
    · intro r h1
      simp [entryOkx] at h1
      subst h1
      norm_num
  · intro c p d h b sv hb hsv
    injection h with h2
    injection h2 with h3
    subst h3
    simp at hb hsv
    subst hb
    subst hsv
    norm_num
  · intro c iv d h r hr
    injection h with h2
    injection h2 with h3
    subst h3
    simp at hr
    subst hr
    norm_num

/-- Claim C4 (amended): for every Success record produced for a
configured exchange from well-formed upstream data (direct-percentage
fraction pairs summing to 1, positive Huobi buy+sell total, nonnegative
ratios), `longPercent + shortPercent` is within 0.01 of 100 — in fact
it equals 100 exactly in exact arithmetic.  Without the well-formedness
assumption the claim fails: Huobi returns a Success record with
`longPercent = shortPercent = 0` when buy = sell = 0 (see the
counterexample). -/
theorem c4_percent_sum (env : Env) (s : String) (tf : Timeframe) (ex : String)
    (hex : ex ∈ exchanges) (hwf : EnvWF env)
    (hst : (runAdapter env s tf ex).status = Status.Success)
    (lp sp : ℚ)
    (hlp : (runAdapter env s tf ex).longPercent = some lp)
    (hsp : (runAdapter env s tf ex).shortPercent = some sp) :
    |lp + sp - 100| ≤ 1 / 100 := by
  obtain ⟨hcc, hhu, hga⟩ := hwf
  fin_cases hex
  · rw [runAdapter_ccxt env s tf "binanceusdm" (by decide) (by decide) (by decide)]
      at hst hlp hsp
    obtain ⟨e, rest, sym, t, hf, hple, hpse⟩ :=
      ccxtBranch_success_parse _ _ _ _ _ _ _ hst hlp hsp
    have hwfi := hcc _ _ _ _ hf e (List.mem_cons_self _ _)
    cases hla : e.info.longAccount with
    | none => simp [parseExchangeData, hla] at hple
    | some la =>
      cases hsa : e.info.shortAccount with
      | none => simp [parseExchangeData, hla, hsa] at hple
      | some sa =>
        simp [parseExchangeData, hla, hsa] at hple hpse
        have h1 : la + sa = 1 := hwfi.1 la sa hla hsa
        have hsum : lp + sp = 100 := by rw [← hple, ← hpse]; linarith
        rw [hsum]; norm_num
  · rw [runAdapter_ccxt env s tf "bybit" (by decide) (by decide) (by decide)]
      at hst hlp hsp
    obtain ⟨e, rest, sym, t, hf, hple, hpse⟩ :=
      ccxtBranch_success_parse _ _ _ _ _ _ _ hst hlp hsp
    have hwfi := hcc _ _ _ _ hf e (List.mem_cons_self _ _)
    cases hla : e.info.buyRatio with
    | none => simp [parseExchangeData, hla] at hple
    | some la =>
      cases hsa : e.info.sellRatio with
      | none => simp [parseExchangeData, hla, hsa] at hple
      | some sa =>
        simp [parseExchangeData, hla, hsa] at hple hpse
        have h1 : la + sa = 1 := hwfi.2.2.1 la sa hla hsa
        have hsum : lp + sp = 100 := by rw [← hple, ← hpse]; linarith
        rw [hsum]; norm_num
  · rw [runAdapter_ccxt env s tf "okx" (by decide) (by decide) (by decide)]
      at hst hlp hsp
    obtain ⟨e, rest, sym, t, hf, hple, hpse⟩ :=
      ccxtBranch_success_parse _ _ _ _ _ _ _ hst hlp hsp
    cases hlr : e.info.longShortRatio with
    | none => simp [parseExchangeData, hlr] at hple
    | some r0 =>
      simp [parseExchangeData, hlr] at hple hpse
      have hsum : lp + sp = 100 := by rw [← hple, ← hpse]; ring
      rw [hsum]; norm_num
  · rw [runAdapter_ccxt env s tf "bitget" (by decide) (by decide) (by decide)]
      at hst hlp hsp
    obtain ⟨e, rest, sym, t, hf, hple, hpse⟩ :=
      ccxtBranch_success_parse _ _ _ _ _ _ _ hst hlp hsp
    have hwfi := hcc _ _ _ _ hf e (List.mem_cons_self _ _)
    cases hla : e.info.longAccountRatio with
    | none => simp [parseExchangeData, hla] at hple
    | some la =>
      cases hsa : e.info.shortAccountRatio with
      | none => simp [parseExchangeData, hla, hsa] at hple
      | some sa =>
        simp [parseExchangeData, hla, hsa] at hple hpse
        have h1 : la + sa = 1 := hwfi.2.1 la sa hla hsa
        have hsum : lp + sp = 100 := by rw [← hple, ← hpse]; linarith
        rw [hsum]; norm_num
  · rw [runAdapter_huobi] at hst hlp hsp
    obtain ⟨d, b, sv, hfe, hbr, hsr, hlpe, hspe⟩ :=
      huobi_success_parse _ _ _ _ _ hst hlp hsp
    have hpos : 0 < b + sv := hhu _ _ _ hfe b sv hbr hsr
    rw [if_pos hpos] at hlpe hspe
    have hne : b + sv ≠ 0 := ne_of_gt hpos
    have hsum : lp + sp = 100 := by
      rw [hlpe, hspe]
      field_simp
      ring
    rw [hsum]; norm_num
  · rw [runAdapter_gateio] at hst hlp hsp
    obtain ⟨gi, d, gr, hgi, hfe, hra, hlpe, hspe⟩ :=
      gateio_success_parse _ _ _ _ _ hst hlp hsp
    have hsum : lp + sp = 100 := by rw [hlpe, hspe]; ring
    rw [hsum]; norm_num

/-- Counterexample for C4 as stated: Huobi with upstream buy 0 / sell 0
produces a Success record whose percents are both 0, and 0 + 0 is not
within 0.01 of 100. -/
theorem c4_counterexample :
    (runAdapter envHuobi00 "BTC" Timeframe.tf5m "huobi").status = Status.Success ∧
    (runAdapter envHuobi00 "BTC" Timeframe.tf5m "huobi").longPercent = some 0 ∧
    (runAdapter envHuobi00 "BTC" Timeframe.tf5m "huobi").shortPercent = some 0 ∧
    ¬ |(0 : ℚ) + 0 - 100| ≤ 1 / 100 := by
  refine ⟨rfl, ?_, ?_, by norm_num⟩ <;>
    simp [runAdapter, huobiBody, caught, envHuobi00, huobi00]

/-- Witness for C4: the Huobi record of the well-formed world `envDemo`
(buy 3 / sell 1) has percents 75 and 25 summing to 100. -/
theorem c4_witness :
    |(75 : ℚ) + 25 - 100| ≤ 1 / 100 :=
  c4_percent_sum envDemo "BTC" Timeframe.tf5m "huobi" (by decide) envDemo_wf
    rfl 75 25 (by simp [runAdapter, huobiBody, caught, envDemo]; norm_num)
    (by simp [runAdapter, huobiBody, caught, envDemo]; norm_num)

end LongShort
